import Mathlib

/-!
Shallow embedding of lib/mongodb/gridfs/readstream.js: the GridFS ReadStream
chunked-object read engine.  The mutable JavaScript instance state is modelled
as an explicit record; asynchronous callbacks are modelled by explicit result
values (an Option whose none case means the callback was never invoked), and
the events emitted on the stream are collected in a trace list.
-/

/-- Modelled from the spec: a chunk of the backing store.  The Chunk class is
not part of the sources; per the external-interface table a chunk exposes its
remaining unread bytes, so it is modelled as the list of those bytes together
with its index. -/
structure Chunk where
  chunkNumber : Int
  data : List Nat
deriving DecidableEq

/-- Modelled from the spec: the remaining unread byte count of the loaded
chunk (called length() in the source). -/
def Chunk.length (c : Chunk) : Nat := c.data.length

/-- Modelled from the spec: readSlice(n) extracts and returns the next n
bytes from the loaded chunk, consuming them. -/
def Chunk.readSlice (c : Chunk) (n : Nat) : List Nat × Chunk :=
  (c.data.take n, { c with data := c.data.drop n })

/-- Modelled from the spec: the boundary of the backing handle (GridStore).
Only the members the engine reads are modelled; the asynchronous operations
fetchChunk and closeResource are supplied to each operation as oracles. -/
structure GridStore where
  length : Nat
  chunkSize : Nat
  position : Nat
  mode : List Char
  currentChunk : Chunk
deriving DecidableEq

/-- Events observable on the stream: produced data units (push of a byte
unit), the end-of-data signal (push null), the close signal with its optional
document payload, the error signal, and an invocation marker recording that
the backing gstore.close operation was called. -/
inductive Ev where
  | data (bytes : List Nat)
  | endOfData
  | close (doc : Option Nat)
  | error (e : Nat)
  | closeCall
deriving DecidableEq

/-- State of a ReadStream instance.  The JavaScript fields _destroyed and
_closed are initialized to null, which is falsy, so they are modelled as
Booleans starting at false. -/
structure ReadStream where
  autoclose : Bool
  gstore : GridStore
  numberOfChunks : Int
  currentChunkNumber : Int
  seekStartPosition : Int
  destroyed : Bool
  closed : Bool
  lastRead : Int
deriving DecidableEq

/-- Constructor ReadStream(autoclose, gstore): autoclose defaults to false
when null or undefined, numberOfChunks is Math.ceil(length / chunkSize), and
seekStartPosition is position - currentChunkNumber * chunkSize, stored
without any validation. -/
def ReadStream.make (autoclose : Option Bool) (gstore : GridStore) : ReadStream :=
  { autoclose := autoclose.getD false
    gstore := gstore
    numberOfChunks := ((gstore.length + gstore.chunkSize - 1) / gstore.chunkSize : Nat)
    currentChunkNumber := gstore.currentChunk.chunkNumber
    seekStartPosition :=
      (gstore.position : Int) - gstore.currentChunk.chunkNumber * (gstore.chunkSize : Int)
    destroyed := false
    closed := false
    lastRead := -1 }

/-- ReadStream.prototype._shutdown(err).  closeOut is the pair of arguments
(err, doc) with which the asynchronous backing gstore.close operation would
invoke its callback; it is only consulted when that operation is invoked. -/
def shutdownRun (closeOut : Option Nat × Option Nat) (err : Option Nat)
    (s : ReadStream) : ReadStream × List Ev :=
  if s.closed then (s, [])
  else
    let s1 := { s with closed := true }
    let errEvs : List Ev :=
      match err with
      | some e => [Ev.error e]
      | none => []
    let tail : List Ev :=
      if s1.autoclose then
        if s1.gstore.mode.head? = some 'w' then
          match closeOut with
          | (some e, doc) => [Ev.closeCall, Ev.error e, Ev.close doc]
          | (none, doc) => [Ev.closeCall, Ev.close doc]
        else [Ev.close none]
      else [Ev.close none]
    (s1, errEvs ++ [Ev.endOfData] ++ tail)

/-- ReadStream.prototype.destroy(err): sets _destroyed, pauses the stream
(no observable effect in this trace model) and runs _shutdown(err). -/
def destroyRun (closeOut : Option Nat × Option Nat) (err : Option Nat)
    (s : ReadStream) : ReadStream × List Ev :=
  if s.destroyed then (s, [])
  else shutdownRun closeOut err { s with destroyed := true }

/-- ReadStream.prototype._advance(callback), with the asynchronous fetch
resolved immediately by the oracle.  The first component is none when the
function returned without ever invoking the callback; otherwise it carries
the resulting state together with the err argument the callback received.
The second component lists the chunk indices handed to gstore._nthChunk. -/
def advanceRun (fetch : Int → Except Nat Chunk) (s : ReadStream) :
    Option (ReadStream × Option Nat) × List Int :=
  if s.destroyed || s.closed then (none, [])
  else if s.lastRead ≠ s.currentChunkNumber then (some (s, none), [])
  else
    let s1 := { s with currentChunkNumber := s.currentChunkNumber + 1 }
    match fetch s1.currentChunkNumber with
    | Except.error e => (some (s1, some e), [s1.currentChunkNumber])
    | Except.ok c =>
        (some ({ s1 with gstore := { s1.gstore with currentChunk := c } }, none),
         [s1.currentChunkNumber])

/-- The slice-extraction step of ReadStream.prototype._readChunk, applied to
the currently loaded chunk once _advance has called back with no error. -/
def readChunkExtract (s : ReadStream) : ReadStream × List Nat :=
  let c := s.gstore.currentChunk
  if s.seekStartPosition > 0 ∧ (c.length : Int) > s.seekStartPosition then
    let r := c.readSlice ((c.length : Int) - s.seekStartPosition).toNat
    ({ s with gstore := { s.gstore with currentChunk := r.2 },
              seekStartPosition := 0,
              lastRead := s.currentChunkNumber }, r.1)
  else
    let r := c.readSlice c.length
    ({ s with gstore := { s.gstore with currentChunk := r.2 },
              lastRead := s.currentChunkNumber }, r.1)

/-- ReadStream.prototype._readChunk(callback): none when the callback was
never invoked; otherwise the state together with the callback arguments
(the error, or the extracted data unit). -/
def readChunkRun (fetch : Int → Except Nat Chunk) (s : ReadStream) :
    Option (ReadStream × Except Nat (List Nat)) × List Int :=
  if s.destroyed || s.closed then (none, [])
  else
    match advanceRun fetch s with
    | (none, f) => (none, f)
    | (some (s1, some e), f) => (some (s1, Except.error e), f)
    | (some (s1, none), f) =>
        let r := readChunkExtract s1
        (some (r.1, Except.ok r.2), f)

/-- ReadStream.prototype._read() with the chunk fetch resolving
synchronously: one pull request serviced to completion.  The data != null
test in the source always passes on the success path of this model, since the
modelled readSlice always returns a byte list. -/
def readStep (fetch : Int → Except Nat Chunk) (closeOut : Option Nat × Option Nat)
    (s : ReadStream) : ReadStream × List Ev :=
  if s.destroyed || s.closed then (s, [])
  else if s.currentChunkNumber > s.numberOfChunks then (s, [])
  else
    match readChunkRun fetch s with
    | (none, _) => (s, [])
    | (some (s1, Except.error e), _) => destroyRun closeOut (some e) s1
    | (some (s1, Except.ok d), _) =>
        if s1.currentChunkNumber ≥ s1.numberOfChunks then
          let r := shutdownRun closeOut none s1
          (r.1, Ev.data d :: r.2)
        else (s1, [Ev.data d])

/-- Iterated pull requests: the flow-control loop invoking _read. -/
def runReads (fetch : Int → Except Nat Chunk) (closeOut : Option Nat × Option Nat) :
    Nat → ReadStream → ReadStream × List Ev
  | 0, s => (s, [])
  | Nat.succ n, s =>
      let r := readStep fetch closeOut s
      let r2 := runReads fetch closeOut n r.1
      (r2.1, r.2 ++ r2.2)

/-- Result of running _read up to the point where a chunk fetch would be
issued: noop when the call returned without invoking anything, immediate when
_advance invoked its callback synchronously with no fetch, pending when a
fetch for the given index has been issued and its continuation is
outstanding.  _read, _readChunk and _advance each re-check the same, still
unchanged flags, so one guard suffices. -/
inductive AdvancePhase where
  | noop
  | immediate (s : ReadStream)
  | pending (s : ReadStream) (idx : Int)
deriving DecidableEq

/-- First phase of _read, ending at the suspension point of the chunk
fetch. -/
def readPhase1 (s : ReadStream) : AdvancePhase :=
  if s.destroyed || s.closed then AdvancePhase.noop
  else if s.currentChunkNumber > s.numberOfChunks then AdvancePhase.noop
  else if s.lastRead ≠ s.currentChunkNumber then AdvancePhase.immediate s
  else
    let s1 := { s with currentChunkNumber := s.currentChunkNumber + 1 }
    AdvancePhase.pending s1 s1.currentChunkNumber

/-- Completion of an outstanding fetch: the continuation chain through the
callbacks of _advance, _readChunk and _read runs on the current state without
re-checking the destroyed or closed flags, exactly as in the source, whose
callbacks contain no such checks. -/
def readResume (closeOut : Option Nat × Option Nat) (s : ReadStream)
    (res : Except Nat Chunk) : ReadStream × List Ev :=
  match res with
  | Except.error e => destroyRun closeOut (some e) s
  | Except.ok c =>
      let s1 := { s with gstore := { s.gstore with currentChunk := c } }
      let r := readChunkExtract s1
      if r.1.currentChunkNumber ≥ r.1.numberOfChunks then
        let r2 := shutdownRun closeOut none r.1
        (r2.1, Ev.data r.2 :: r2.2)
      else (r.1, [Ev.data r.2])

/-- Number of produced-data events in a trace. -/
def dataCount : List Ev → Nat
  | [] => 0
  | Ev.data _ :: t => dataCount t + 1
  | _ :: t => dataCount t

/-- Sizes of the produced data units of a trace, in order. -/
def dataSizes : List Ev → List Nat
  | [] => []
  | Ev.data d :: t => d.length :: dataSizes t
  | _ :: t => dataSizes t

/-- Number of error signals in a trace. -/
def errorCount : List Ev → Nat
  | [] => 0
  | Ev.error _ :: t => errorCount t + 1
  | _ :: t => errorCount t

/-- Number of close signals in a trace. -/
def closeCount : List Ev → Nat
  | [] => 0
  | Ev.close _ :: t => closeCount t + 1
  | _ :: t => closeCount t

/-- Number of invocations of the backing resource-close operation recorded in
a trace. -/
def closeCallCount : List Ev → Nat
  | [] => 0
  | Ev.closeCall :: t => closeCallCount t + 1
  | _ :: t => closeCallCount t

/-- Number of end-of-data signals in a trace. -/
def endCount : List Ev → Nat
  | [] => 0
  | Ev.endOfData :: t => endCount t + 1
  | _ :: t => endCount t

/-- Modelled from the spec: the chunk store of Scenario A, a 10 byte object
(bytes 0..9) in chunks of 4.  The spec leaves fetches beyond the last chunk
unspecified; the store is modelled as yielding an empty chunk there. -/
def fetchA (i : Int) : Except Nat Chunk :=
  if i = 1 then Except.ok { chunkNumber := 1, data := [4, 5, 6, 7] }
  else if i = 2 then Except.ok { chunkNumber := 2, data := [8, 9] }
  else Except.ok { chunkNumber := i, data := [] }

/-- Backing handle of Scenario A: length 10, chunkSize 4, position 0, chunk 0
loaded, read mode. -/
def gstoreA : GridStore :=
  { length := 10, chunkSize := 4, position := 0, mode := ['r'],
    currentChunk := { chunkNumber := 0, data := [0, 1, 2, 3] } }

/-- The Scenario A stream, autoclose explicitly disabled. -/
def streamA : ReadStream := ReadStream.make (some false) gstoreA

/-- A concrete mid-session state used for the skip-extraction claim: the
Scenario B start, position 5 inside chunk 1, so seekStartPosition is 1. -/
def gstoreB : GridStore :=
  { length := 10, chunkSize := 4, position := 5, mode := ['r'],
    currentChunk := { chunkNumber := 1, data := [4, 5, 6, 7] } }

/-- The stream constructed on gstoreB. -/
def streamB : ReadStream := ReadStream.make (some false) gstoreB

/-- A concrete mid-session state whose loaded chunk 0 is exhausted (lastRead
equals currentChunkNumber), so the next pull issues a fetch. -/
def streamD : ReadStream :=
  { autoclose := false
    gstore := { length := 10, chunkSize := 4, position := 0, mode := ['r'],
                currentChunk := { chunkNumber := 0, data := [] } }
    numberOfChunks := 3
    currentChunkNumber := 0
    seekStartPosition := 0
    destroyed := false
    closed := false
    lastRead := 0 }

/-- The state streamD after _advance has incremented the chunk index and
issued the fetch for chunk 1. -/
def streamDp : ReadStream := { streamD with currentChunkNumber := 1 }

/-- A concrete mid-session state identical to streamD, used for the
fetch-failure claim. -/
def streamE : ReadStream :=
  { autoclose := false
    gstore := { length := 10, chunkSize := 4, position := 0, mode := ['r'],
                currentChunk := { chunkNumber := 0, data := [] } }
    numberOfChunks := 3
    currentChunkNumber := 0
    seekStartPosition := 0
    destroyed := false
    closed := false
    lastRead := 0 }

/-- A fetch oracle that always fails with error code 9. -/
def fetchFail (_ : Int) : Except Nat Chunk := Except.error 9

/-- A concrete instance whose closed flag is already set. -/
def streamClosedC6 : ReadStream :=
  { autoclose := false
    gstore := gstoreA
    numberOfChunks := 3
    currentChunkNumber := 0
    seekStartPosition := 0
    destroyed := false
    closed := true
    lastRead := -1 }

/-- A backing handle whose reported position lies before the loaded chunk:
position 3 with chunk 1 loaded and chunkSize 4 gives the malformed offset
3 - 1 * 4 = -1. -/
def gstoreBad : GridStore :=
  { length := 10, chunkSize := 4, position := 3, mode := ['r'],
    currentChunk := { chunkNumber := 1, data := [4, 5, 6, 7] } }

/-- The stream constructed on the malformed handle: construction succeeds. -/
def streamBad : ReadStream := ReadStream.make (some false) gstoreBad

/-- A concrete open stream with autoclose enabled and a write-oriented
backing handle. -/
def streamW : ReadStream :=
  { autoclose := true
    gstore := { length := 10, chunkSize := 4, position := 0, mode := ['w', '+'],
                currentChunk := { chunkNumber := 0, data := [0, 1, 2, 3] } }
    numberOfChunks := 3
    currentChunkNumber := 0
    seekStartPosition := 0
    destroyed := false
    closed := false
    lastRead := -1 }

/-- A concrete mid-session state with autoclose enabled and a write-oriented
backing handle, whose loaded chunk 0 is exhausted, so the next pull issues a
fetch. -/
def streamWE : ReadStream :=
  { autoclose := true
    gstore := { length := 10, chunkSize := 4, position := 0, mode := ['w'],
                currentChunk := { chunkNumber := 0, data := [] } }
    numberOfChunks := 3
    currentChunkNumber := 0
    seekStartPosition := 0
    destroyed := false
    closed := false
    lastRead := 0 }

/-- A concrete mid-session state identical to streamWE, used for the
cancellation-with-outstanding-fetch claim. -/
def streamDW : ReadStream :=
  { autoclose := true
    gstore := { length := 10, chunkSize := 4, position := 0, mode := ['w'],
                currentChunk := { chunkNumber := 0, data := [] } }
    numberOfChunks := 3
    currentChunkNumber := 0
    seekStartPosition := 0
    destroyed := false
    closed := false
    lastRead := 0 }

/-- Running _shutdown on an already closed instance changes nothing and emits
nothing. -/
theorem shutdownRun_closed_noop (co : Option Nat × Option Nat) (err : Option Nat)
    (s : ReadStream) (h : s.closed = true) : shutdownRun co err s = (s, []) := by
  simp [shutdownRun, h]

/-- The shutdown coordinator never touches the destroyed flag. -/
theorem shutdownRun_fst_destroyed (co : Option Nat × Option Nat) (err : Option Nat)
    (s : ReadStream) : (shutdownRun co err s).1.destroyed = s.destroyed := by
  cases h : s.closed <;> simp [shutdownRun, h]

/-- After any destroy call the destroyed flag is set. -/
theorem destroyRun_fst_destroyed (co : Option Nat × Option Nat) (err : Option Nat)
    (s : ReadStream) : (destroyRun co err s).1.destroyed = true := by
  cases h : s.destroyed
  · rw [destroyRun]
    simp only [h, Bool.false_eq_true, if_false]
    rw [shutdownRun_fst_destroyed]
  · simp [destroyRun, h]

/-- Destroying an already destroyed instance changes nothing and emits
nothing. -/
theorem destroyRun_destroyed_noop (co : Option Nat × Option Nat) (err : Option Nat)
    (s : ReadStream) (h : s.destroyed = true) : destroyRun co err s = (s, []) := by
  simp [destroyRun, h]

/-- Close signals counted over an appended trace. -/
theorem closeCount_append (a b : List Ev) :
    closeCount (a ++ b) = closeCount a + closeCount b := by
  induction a with
  | nil => simp [closeCount]
  | cons x t ih => cases x <;> (simp [closeCount, ih]; try omega)

/-- Resource-close invocations counted over an appended trace. -/
theorem closeCallCount_append (a b : List Ev) :
    closeCallCount (a ++ b) = closeCallCount a + closeCallCount b := by
  induction a with
  | nil => simp [closeCallCount]
  | cons x t ih => cases x <;> (simp [closeCallCount, ih]; try omega)

/-- An effective shutdown emits exactly one close signal, whatever the
autoclose policy, mode, and close outcome. -/
theorem shutdownRun_closeCount_one (co : Option Nat × Option Nat) (err : Option Nat)
    (s : ReadStream) (h : s.closed = false) :
    closeCount (shutdownRun co err s).2 = 1 := by
  rcases co with ⟨ce, cd⟩
  rw [shutdownRun.eq_def]
  simp only [h, Bool.false_eq_true, if_false]
  cases err <;> cases ce <;> cases hca : s.autoclose <;>
    by_cases hm : s.gstore.mode.head? = some 'w' <;>
      simp [hca, hm, closeCount_append, closeCount]

/-- A shutdown with autoclose disabled never invokes the resource-close
operation. -/
theorem shutdownRun_no_closeCall (co : Option Nat × Option Nat) (err : Option Nat)
    (s : ReadStream) (h : s.autoclose = false) :
    closeCallCount (shutdownRun co err s).2 = 0 := by
  cases hc : s.closed
  · rw [shutdownRun.eq_def]
    simp only [hc, Bool.false_eq_true, if_false]
    cases err <;> simp [closeCallCount_append, closeCallCount, h]
  · simp [shutdownRun, hc, closeCallCount]

/-- Error signals counted over an appended trace. -/
theorem errorCount_append (a b : List Ev) :
    errorCount (a ++ b) = errorCount a + errorCount b := by
  induction a with
  | nil => simp [errorCount]
  | cons x t ih => cases x <;> (simp [errorCount, ih]; try omega)

/-- Produced-data events counted over an appended trace. -/
theorem dataCount_append (a b : List Ev) :
    dataCount (a ++ b) = dataCount a + dataCount b := by
  induction a with
  | nil => simp [dataCount]
  | cons x t ih => cases x <;> (simp [dataCount, ih]; try omega)

/-- End-of-data signals counted over an appended trace. -/
theorem endCount_append (a b : List Ev) :
    endCount (a ++ b) = endCount a + endCount b := by
  induction a with
  | nil => simp [endCount]
  | cons x t ih => cases x <;> (simp [endCount, ih]; try omega)

/-- After any shutdown call the closed flag is set. -/
theorem shutdownRun_fst_closed (co : Option Nat × Option Nat) (err : Option Nat)
    (s : ReadStream) : (shutdownRun co err s).1.closed = true := by
  cases h : s.closed <;> simp [shutdownRun, h]

/-- After destroying a not-yet-destroyed instance the closed flag is set. -/
theorem destroyRun_fst_closed (co : Option Nat × Option Nat) (err : Option Nat)
    (s : ReadStream) (h : s.destroyed = false) :
    (destroyRun co err s).1.closed = true := by
  rw [destroyRun]
  simp only [h, Bool.false_eq_true, if_false]
  exact shutdownRun_fst_closed co err _

/-- A shutdown never emits a data unit, whatever the state and outcomes. -/
theorem shutdownRun_dataCount_zero (co : Option Nat × Option Nat)
    (err : Option Nat) (s : ReadStream) :
    dataCount (shutdownRun co err s).2 = 0 := by
  rcases co with ⟨ce, cd⟩
  cases hcl : s.closed
  · rw [shutdownRun.eq_def]
    simp only [hcl, Bool.false_eq_true, if_false]
    cases err <;> cases ce <;> cases hca : s.autoclose <;>
      by_cases hm : s.gstore.mode.head? = some 'w' <;>
        simp [hca, hm, dataCount_append, dataCount]
  · simp [shutdownRun, hcl, dataCount]

/-- An effective shutdown emits exactly one end-of-data signal. -/
theorem shutdownRun_endCount_one (co : Option Nat × Option Nat)
    (err : Option Nat) (s : ReadStream) (h : s.closed = false) :
    endCount (shutdownRun co err s).2 = 1 := by
  rcases co with ⟨ce, cd⟩
  rw [shutdownRun.eq_def]
  simp only [h, Bool.false_eq_true, if_false]
  cases err <;> cases ce <;> cases hca : s.autoclose <;>
    by_cases hm : s.gstore.mode.head? = some 'w' <;>
      simp [hca, hm, endCount_append, endCount]

/-- An effective shutdown carrying an error emits exactly one error signal,
plus one more exactly when the autoclose resource-close operation is invoked
(autoclose set, write mode) and itself fails. -/
theorem shutdownRun_errorCount_some (co : Option Nat × Option Nat) (e : Nat)
    (s : ReadStream) (h : s.closed = false) :
    errorCount (shutdownRun co (some e) s).2 =
      if s.autoclose = true ∧ s.gstore.mode.head? = some 'w' ∧
          co.1.isSome = true
      then 2 else 1 := by
  rcases co with ⟨ce, cd⟩
  rw [shutdownRun.eq_def]
  simp only [h, Bool.false_eq_true, if_false]
  cases ce <;> cases hca : s.autoclose <;>
    by_cases hm : s.gstore.mode.head? = some 'w' <;>
      simp [hca, hm, errorCount_append, errorCount]

/-- In an effective shutdown carrying an error, the error signal for it is
the very first emitted event (in particular it precedes the end-of-data
signal). -/
theorem shutdownRun_head_error (co : Option Nat × Option Nat) (e : Nat)
    (s : ReadStream) (h : s.closed = false) :
    ((shutdownRun co (some e) s).2).head? = some (Ev.error e) := by
  rw [shutdownRun.eq_def]
  simp only [h, Bool.false_eq_true, if_false]
  simp

/-- The slice-extraction step never touches the closed flag. -/
theorem readChunkExtract_fst_closed (s : ReadStream) :
    (readChunkExtract s).1.closed = s.closed := by
  rw [readChunkExtract]
  split <;> rfl

/-- C1: on a non-closed, non-destroyed instance, _advance with
lastRead different from currentChunkNumber performs no fetch and calls back
successfully with no state change; otherwise it increments currentChunkNumber
by exactly 1, issues exactly one fetch for the chunk at the new index, on
success installs the fetched chunk as the loaded chunk and calls back
successfully, and on fetch failure calls back with that error, leaving the
incremented index in place and the loaded chunk unreplaced. -/
theorem advance_behavior (fetch : Int → Except Nat Chunk) (s : ReadStream)
    (c : Chunk) (e : Nat) (hd : s.destroyed = false) (hc : s.closed = false) :
    (s.lastRead ≠ s.currentChunkNumber →
      advanceRun fetch s = (some (s, none), [])) ∧
    (s.lastRead = s.currentChunkNumber →
      fetch (s.currentChunkNumber + 1) = Except.ok c →
      advanceRun fetch s =
        (some ({ s with currentChunkNumber := s.currentChunkNumber + 1,
                        gstore := { s.gstore with currentChunk := c } }, none),
         [s.currentChunkNumber + 1])) ∧
    (s.lastRead = s.currentChunkNumber →
      fetch (s.currentChunkNumber + 1) = Except.error e →
      advanceRun fetch s =
        (some ({ s with currentChunkNumber := s.currentChunkNumber + 1 }, some e),
         [s.currentChunkNumber + 1])) := by
  refine ⟨?_, ?_, ?_⟩
  · intro hne
    simp [advanceRun, hd, hc, hne]
  · intro heq hf
    simp [advanceRun, hd, hc, heq, hf]
  · intro heq hf
    simp [advanceRun, hd, hc, heq, hf]

/-- Witness for C1 at the Scenario A initial state, where the loaded chunk is
still unread. -/
theorem advance_behavior_witness :
    advanceRun fetchA streamA = (some (streamA, none), []) :=
  (advance_behavior fetchA streamA { chunkNumber := 1, data := [4, 5, 6, 7] } 0
    rfl rfl).1 (by decide)

/-- C6 counterexample: on a concrete instance whose closed flag is set,
_advance and _readChunk return without ever invoking their callback (the
first component none records that no outcome was delivered), so the
operations do not resolve and a waiting caller is never resumed. -/
theorem advance_when_closed_cex :
    (advanceRun fetchA streamClosedC6).1 = none ∧
    (readChunkRun fetchA streamClosedC6).1 = none :=
  ⟨rfl, rfl⟩

/-- C6 amended: for every invocation of _advance or _readChunk on an instance
whose closed or destroyed flag is already set, the function returns
immediately without invoking its continuation at all (no outcome is ever
delivered) and without issuing any fetch. -/
theorem advance_when_closed_behavior (fetch : Int → Except Nat Chunk)
    (s : ReadStream) (h : s.destroyed = true ∨ s.closed = true) :
    advanceRun fetch s = (none, []) ∧ readChunkRun fetch s = (none, []) := by
  rcases h with h | h <;> simp [advanceRun, readChunkRun, h]

/-- Witness for the amended C6 at a concrete closed instance. -/
theorem advance_when_closed_behavior_witness :
    advanceRun fetchA streamClosedC6 = (none, []) ∧
    readChunkRun fetchA streamClosedC6 = (none, []) :=
  advance_when_closed_behavior fetchA streamClosedC6 (Or.inr rfl)

/-- C2 counterexample: at the Scenario B start (chunk of bytes 4..7 with
pendingSkipBytes 1) the production step yields the leading three bytes
[4, 5, 6] of the chunk, not the trailing three bytes obtained by dropping the
first pendingSkipBytes bytes as the claim states. -/
theorem readChunk_slice_cex :
    (readChunkExtract streamB).2 = [4, 5, 6] ∧
    (readChunkExtract streamB).2 ≠ streamB.gstore.currentChunk.data.drop 1 := by
  decide

/-- C2 amended: in every production step, if pendingSkipBytes is positive and
strictly below the available chunk length, the produced unit is the leading
(chunkLength - pendingSkipBytes) bytes of the chunk (readSlice consumes from
the front) and pendingSkipBytes is then permanently reset to 0; in every
other case the produced unit is the entirety of the chunk's remaining bytes
and pendingSkipBytes is unchanged; in both cases lastFullyReadChunkIndex is
set to currentChunkIndex. -/
theorem readChunk_slice_behavior (s : ReadStream) :
    (s.seekStartPosition > 0 →
      (s.gstore.currentChunk.length : Int) > s.seekStartPosition →
      (readChunkExtract s).2 =
        s.gstore.currentChunk.data.take
          (((s.gstore.currentChunk.length : Int) - s.seekStartPosition).toNat) ∧
      (readChunkExtract s).1.seekStartPosition = 0) ∧
    ((s.seekStartPosition ≤ 0 ∨
        (s.gstore.currentChunk.length : Int) ≤ s.seekStartPosition) →
      (readChunkExtract s).2 = s.gstore.currentChunk.data ∧
      (readChunkExtract s).1.seekStartPosition = s.seekStartPosition) ∧
    (readChunkExtract s).1.lastRead = s.currentChunkNumber := by
  refine ⟨?_, ?_, ?_⟩
  · intro h1 h2
    simp [readChunkExtract, Chunk.readSlice, h1, h2]
  · intro h
    simp only [readChunkExtract, Chunk.readSlice, Chunk.length]
    split
    · rename_i hx
      exfalso
      rcases h with h | h
      · exact absurd hx.1 (not_lt.mpr h)
      · exact absurd hx.2 (not_lt.mpr h)
    · simp [List.take_length]
  · by_cases hcond : s.seekStartPosition > 0 ∧
        (s.gstore.currentChunk.length : Int) > s.seekStartPosition <;>
      simp [readChunkExtract, hcond]

/-- Witness for the amended C2 at the Scenario B start. -/
theorem readChunk_slice_behavior_witness :
    (readChunkExtract streamB).2 =
      streamB.gstore.currentChunk.data.take
        (((streamB.gstore.currentChunk.length : Int) -
            streamB.seekStartPosition).toNat) ∧
    (readChunkExtract streamB).1.seekStartPosition = 0 :=
  (readChunk_slice_behavior streamB).1 (by decide) (by decide)

/-- C3 counterexample: in the Scenario A session (length 10, chunkSize 4,
position 0, autoclose disabled) the produced data units have sizes
[4, 4, 2, 0], not [4, 4, 2]: after the last real chunk the engine advances
once more, fetches past the end and pushes an empty unit before shutting
down. -/
theorem scenarioA_sizes_cex :
    dataSizes (runReads fetchA (none, none) 6 streamA).2 ≠ [4, 4, 2] := by
  decide

/-- C3 amended: in the Scenario A session totalChunks is computed as 3, the
produced data units have sizes [4, 4, 2, 0] in that order (a final empty unit
is produced when the engine advances past the last chunk), then the
end-of-data signal is emitted, then the close signal, and the backing
resource-close operation is never invoked. -/
theorem scenarioA_trace :
    streamA.numberOfChunks = 3 ∧
    (runReads fetchA (none, none) 6 streamA).2 =
      [Ev.data [0, 1, 2, 3], Ev.data [4, 5, 6, 7], Ev.data [8, 9], Ev.data [],
       Ev.endOfData, Ev.close none] ∧
    closeCallCount (runReads fetchA (none, none) 6 streamA).2 = 0 ∧
    (runReads fetchA (none, none) 6 streamA).1.closed = true := by
  decide

/-- Completing an outstanding fetch successfully on an already closed
instance still extracts and pushes a data unit: the continuation installs the
fetched chunk, slices it, and pushes, and only the final shutdown attempt is
a no-op. -/
theorem readResume_ok_closed (co : Option Nat × Option Nat) (s : ReadStream)
    (c : Chunk) (h : s.closed = true) :
    (readResume co s (Except.ok c)).2 =
      [Ev.data (readChunkExtract
          { s with gstore := { s.gstore with currentChunk := c } }).2] := by
  have hclosed : (readChunkExtract
      { s with gstore := { s.gstore with currentChunk := c } }).1.closed = true := by
    rw [readChunkExtract_fst_closed]
    exact h
  simp only [readResume]
  split
  · rw [shutdownRun_closed_noop _ _ _ hclosed]
  · rfl

/-- C4: shutdown and cancellation are idempotent.  First conjunct: _shutdown
on an instance whose closed flag is set returns immediately with no state
change and no emissions.  Second conjunct: a second destroy, with any
arguments, after any first destroy is a no-op with no emissions, so two
cancels have the observable effect of exactly one.  Third conjunct: one
effective cancel emits exactly one close signal. -/
theorem shutdown_destroy_idempotent :
    (∀ (co : Option Nat × Option Nat) (err : Option Nat) (s : ReadStream),
        s.closed = true → shutdownRun co err s = (s, [])) ∧
    (∀ (co1 co2 : Option Nat × Option Nat) (e1 e2 : Option Nat)
        (s : ReadStream),
        destroyRun co2 e2 (destroyRun co1 e1 s).1 =
          ((destroyRun co1 e1 s).1, [])) ∧
    (∀ (co : Option Nat × Option Nat) (e1 : Option Nat) (s : ReadStream),
        s.destroyed = false → s.closed = false →
          closeCount (destroyRun co e1 s).2 = 1) := by
  refine ⟨fun co err s h => shutdownRun_closed_noop co err s h,
          fun co1 co2 e1 e2 s =>
            destroyRun_destroyed_noop co2 e2 _ (destroyRun_fst_destroyed co1 e1 s),
          ?_⟩
  intro co e1 s hd hc
  rw [destroyRun]
  simp only [hd, Bool.false_eq_true, if_false]
  exact shutdownRun_closeCount_one co e1 _ hc

/-- Witness for C4: one effective cancel on the Scenario A stream emits
exactly one close signal. -/
theorem shutdown_destroy_idempotent_witness :
    closeCount (destroyRun (none, none) (some 5) streamA).2 = 1 :=
  shutdown_destroy_idempotent.2.2 (none, none) (some 5) streamA rfl rfl

/-- C5 counterexample: with autoclose enabled, a write-oriented handle and a
failing resource-close, a fetch failure yields the trace
[error 9, end-of-data, closeCall, error 3, close], which carries two error
signals, not exactly one as the claim states. -/
theorem fetch_failure_two_errors_cex :
    (readStep fetchFail (some 3, some 42) streamWE).2 =
      [Ev.error 9, Ev.endOfData, Ev.closeCall, Ev.error 3, Ev.close (some 42)] ∧
    errorCount (readStep fetchFail (some 3, some 42) streamWE).2 ≠ 1 := by
  refine ⟨rfl, by decide⟩

/-- C5 amended: a fetch failure during a pull on a live session emits exactly
one error signal for the fetch failure, plus exactly one additional error
signal when the autoclose resource-close operation is invoked (autoclose set,
write mode) and itself fails; exactly one end-of-data signal; exactly one
close signal; zero data units; and the fetch-failure error signal is the
first emitted event, hence before the end-of-data signal.  The resulting
state is closed and destroyed, and every later pull on a closed state emits
nothing. -/
theorem fetch_failure_signals (fetch : Int → Except Nat Chunk)
    (co : Option Nat × Option Nat) (s : ReadStream) (e : Nat)
    (hd : s.destroyed = false) (hc : s.closed = false)
    (hle : s.currentChunkNumber ≤ s.numberOfChunks)
    (heq : s.lastRead = s.currentChunkNumber)
    (hf : fetch (s.currentChunkNumber + 1) = Except.error e) :
    ((readStep fetch co s).2).head? = some (Ev.error e) ∧
    errorCount (readStep fetch co s).2 =
      (if s.autoclose = true ∧ s.gstore.mode.head? = some 'w' ∧
          co.1.isSome = true
       then 2 else 1) ∧
    endCount (readStep fetch co s).2 = 1 ∧
    closeCount (readStep fetch co s).2 = 1 ∧
    dataCount (readStep fetch co s).2 = 0 ∧
    (readStep fetch co s).1.closed = true ∧
    (readStep fetch co s).1.destroyed = true ∧
    ∀ (f2 : Int → Except Nat Chunk) (c2 : Option Nat × Option Nat)
        (s2 : ReadStream), s2.closed = true → readStep f2 c2 s2 = (s2, []) := by
  have hgt : ¬ s.currentChunkNumber > s.numberOfChunks := not_lt.mpr hle
  have hstep : readStep fetch co s =
      shutdownRun co (some e)
        { s with currentChunkNumber := s.currentChunkNumber + 1,
                 destroyed := true } := by
    simp [readStep, readChunkRun, advanceRun, destroyRun, hd, hc, heq, hgt, hf]
  refine ⟨?_, ?_, ?_, ?_, ?_, ?_, ?_, ?_⟩
  · rw [hstep]
    exact shutdownRun_head_error co e _ hc
  · rw [hstep]
    exact shutdownRun_errorCount_some co e _ hc
  · rw [hstep]
    exact shutdownRun_endCount_one co (some e) _ hc
  · rw [hstep]
    exact shutdownRun_closeCount_one co (some e) _ hc
  · rw [hstep]
    exact shutdownRun_dataCount_zero co (some e) _
  · rw [hstep]
    exact shutdownRun_fst_closed co (some e) _
  · rw [hstep, shutdownRun_fst_destroyed]
  · intro f2 c2 s2 h2
    simp [readStep, h2]

/-- Witness for the amended C5 at a concrete state exercising the
autoclose write-mode failing-close corner: two error signals, the fetch
error first. -/
theorem fetch_failure_signals_witness :
    ((readStep fetchFail (some 3, some 42) streamWE).2).head? =
      some (Ev.error 9) ∧
    errorCount (readStep fetchFail (some 3, some 42) streamWE).2 = 2 :=
  ⟨(fetch_failure_signals fetchFail (some 3, some 42) streamWE 9 rfl rfl
      (by decide) rfl rfl).1,
   (fetch_failure_signals fetchFail (some 3, some 42) streamWE 9 rfl rfl
      (by decide) rfl rfl).2.1⟩

/-- C7 counterexample: on the concrete state streamD a pull issues a fetch
for chunk 1 and suspends; cancel(7) then runs to completion, after which the
successful completion of the outstanding fetch still produces a data unit
(dataCount of the resumed trace is not 0), contradicting the claim that the
in-flight result is discarded. -/
theorem cancel_inflight_cex :
    readPhase1 streamD = AdvancePhase.pending streamDp 1 ∧
    (destroyRun (none, none) (some 7) streamDp).2 =
      [Ev.error 7, Ev.endOfData, Ev.close none] ∧
    dataCount (readResume (none, none)
        (destroyRun (none, none) (some 7) streamDp).1
        (Except.ok { chunkNumber := 1, data := [4, 5, 6, 7] })).2 ≠ 0 := by
  refine ⟨rfl, rfl, by decide⟩

/-- C7 amended: when cancel(err) runs while a fetch is outstanding, the
cancellation itself emits exactly one error signal for err — plus exactly one
additional error signal when the autoclose resource-close operation is
invoked (autoclose set, write mode) and itself fails — exactly one
end-of-data signal and exactly one close signal, and no data unit; but the
outstanding fetch's successful completion is then still acted upon: the
fetched chunk is installed and exactly one further data unit is produced (the
resumed continuation emits one data event and no further error or close
signals, its shutdown attempt being a no-op). -/
theorem cancel_inflight_behavior (s : ReadStream) (e : Nat) (c : Chunk)
    (co1 co2 : Option Nat × Option Nat)
    (hd : s.destroyed = false) (hc : s.closed = false)
    (hle : s.currentChunkNumber ≤ s.numberOfChunks)
    (heq : s.lastRead = s.currentChunkNumber) :
    readPhase1 s = AdvancePhase.pending
        { s with currentChunkNumber := s.currentChunkNumber + 1 }
        (s.currentChunkNumber + 1) ∧
    errorCount (destroyRun co1 (some e)
        { s with currentChunkNumber := s.currentChunkNumber + 1 }).2 =
      (if s.autoclose = true ∧ s.gstore.mode.head? = some 'w' ∧
          co1.1.isSome = true
       then 2 else 1) ∧
    endCount (destroyRun co1 (some e)
        { s with currentChunkNumber := s.currentChunkNumber + 1 }).2 = 1 ∧
    closeCount (destroyRun co1 (some e)
        { s with currentChunkNumber := s.currentChunkNumber + 1 }).2 = 1 ∧
    dataCount (destroyRun co1 (some e)
        { s with currentChunkNumber := s.currentChunkNumber + 1 }).2 = 0 ∧
    dataCount (readResume co2
        (destroyRun co1 (some e)
          { s with currentChunkNumber := s.currentChunkNumber + 1 }).1
        (Except.ok c)).2 = 1 ∧
    errorCount (readResume co2
        (destroyRun co1 (some e)
          { s with currentChunkNumber := s.currentChunkNumber + 1 }).1
        (Except.ok c)).2 = 0 ∧
    closeCount (readResume co2
        (destroyRun co1 (some e)
          { s with currentChunkNumber := s.currentChunkNumber + 1 }).1
        (Except.ok c)).2 = 0 := by
  have hgt : ¬ s.currentChunkNumber > s.numberOfChunks := not_lt.mpr hle
  have h1 : readPhase1 s = AdvancePhase.pending
      { s with currentChunkNumber := s.currentChunkNumber + 1 }
      (s.currentChunkNumber + 1) := by
    simp [readPhase1, hd, hc, heq, hgt]
  have hdc : destroyRun co1 (some e)
      { s with currentChunkNumber := s.currentChunkNumber + 1 } =
      shutdownRun co1 (some e)
        { s with currentChunkNumber := s.currentChunkNumber + 1,
                 destroyed := true } := by
    simp [destroyRun, hd]
  have hclosed : (destroyRun co1 (some e)
      { s with currentChunkNumber := s.currentChunkNumber + 1 }).1.closed =
      true :=
    destroyRun_fst_closed co1 (some e) _ hd
  have hres := readResume_ok_closed co2
    (destroyRun co1 (some e)
      { s with currentChunkNumber := s.currentChunkNumber + 1 }).1 c hclosed
  refine ⟨h1, ?_, ?_, ?_, ?_, ?_, ?_, ?_⟩
  · rw [hdc]
    exact shutdownRun_errorCount_some co1 e _ hc
  · rw [hdc]
    exact shutdownRun_endCount_one co1 (some e) _ hc
  · rw [hdc]
    exact shutdownRun_closeCount_one co1 (some e) _ hc
  · rw [hdc]
    exact shutdownRun_dataCount_zero co1 (some e) _
  · rw [hres]
    simp [dataCount]
  · rw [hres]
    simp [errorCount]
  · rw [hres]
    simp [closeCount]

/-- Witness for the amended C7 at the concrete state streamDW, exercising the
autoclose write-mode failing-close corner of the cancellation and the data
unit pushed by the resumed fetch. -/
theorem cancel_inflight_behavior_witness :
    errorCount (destroyRun (some 3, some 42) (some 7)
        { streamDW with
            currentChunkNumber := streamDW.currentChunkNumber + 1 }).2 = 2 ∧
    dataCount (readResume (none, none)
        (destroyRun (some 3, some 42) (some 7)
          { streamDW with
              currentChunkNumber := streamDW.currentChunkNumber + 1 }).1
        (Except.ok { chunkNumber := 1, data := [4, 5, 6, 7] })).2 = 1 :=
  ⟨(cancel_inflight_behavior streamDW 7
      { chunkNumber := 1, data := [4, 5, 6, 7] } (some 3, some 42)
      (none, none) rfl rfl (by decide) rfl).2.1,
   (cancel_inflight_behavior streamDW 7
      { chunkNumber := 1, data := [4, 5, 6, 7] } (some 3, some 42)
      (none, none) rfl rfl (by decide) rfl).2.2.2.2.2.1⟩

/-- C8 counterexample: on a backing handle whose position lies before the
loaded chunk (position 3, chunk 1, chunkSize 4, so the offset is -1),
construction succeeds and yields a live instance storing the malformed
offset, and the next production step silently produces the full chunk, so no
construction-time contract violation is ever raised. -/
theorem construction_accepts_malformed_cex :
    streamBad.seekStartPosition = -1 ∧
    streamBad.closed = false ∧
    streamBad.destroyed = false ∧
    (readStep (fun i => Except.ok { chunkNumber := i, data := [] }) (none, none)
        streamBad).2 = [Ev.data [4, 5, 6, 7]] := by
  refine ⟨rfl, rfl, rfl, rfl⟩

/-- C8 amended: construction performs no validation at all: it always
succeeds, stores seekStartPosition exactly as computed (even when negative or
at least chunkSize) and yields a live instance; a non-positive stored offset
never triggers the skip branch, so production silently yields full chunks
instead of failing. -/
theorem construction_no_validation :
    (∀ (a : Option Bool) (g : GridStore),
        (ReadStream.make a g).seekStartPosition =
          (g.position : Int) - g.currentChunk.chunkNumber * (g.chunkSize : Int) ∧
        (ReadStream.make a g).closed = false ∧
        (ReadStream.make a g).destroyed = false) ∧
    (∀ s : ReadStream, s.seekStartPosition ≤ 0 →
        (readChunkExtract s).2 = s.gstore.currentChunk.data ∧
        (readChunkExtract s).1.seekStartPosition = s.seekStartPosition) := by
  refine ⟨fun a g => ⟨rfl, rfl, rfl⟩, ?_⟩
  intro s h
  simp only [readChunkExtract, Chunk.readSlice, Chunk.length]
  split
  · rename_i hx
    exact absurd hx.1 (not_lt.mpr h)
  · simp [List.take_length]

/-- Witness for the amended C8 on the malformed concrete handle. -/
theorem construction_no_validation_witness :
    (readChunkExtract streamBad).2 = streamBad.gstore.currentChunk.data ∧
    (readChunkExtract streamBad).1.seekStartPosition =
      streamBad.seekStartPosition :=
  construction_no_validation.2 streamBad (by decide)

/-- C9: in an effective shutdown with autoclose enabled and a write-oriented
backing handle, the resource-close operation is invoked and the close signal
is emitted afterwards regardless of whether that operation failed; a failure
additionally emits an error signal immediately before the close signal and
never suppresses it. -/
theorem shutdown_autoclose_write (s : ReadStream) (err : Option Nat) (e : Nat)
    (doc1 doc2 : Option Nat) (hc : s.closed = false) (ha : s.autoclose = true)
    (hm : s.gstore.mode.head? = some 'w') :
    (shutdownRun (some e, doc1) err s).2 =
      (match err with | some x => [Ev.error x] | none => ([] : List Ev)) ++
        [Ev.endOfData, Ev.closeCall, Ev.error e, Ev.close doc1] ∧
    (shutdownRun (none, doc2) err s).2 =
      (match err with | some x => [Ev.error x] | none => ([] : List Ev)) ++
        [Ev.endOfData, Ev.closeCall, Ev.close doc2] := by
  constructor <;>
    · rw [shutdownRun.eq_def]
      simp only [hc, Bool.false_eq_true, if_false]
      cases err <;> simp [ha, hm]

/-- Witness for C9: close failure with code 3 on a concrete write-mode
stream. -/
theorem shutdown_autoclose_write_witness :
    (shutdownRun (some 3, some 42) none streamW).2 =
      [Ev.endOfData, Ev.closeCall, Ev.error 3, Ev.close (some 42)] :=
  (shutdown_autoclose_write streamW none 3 (some 42) (some 0) rfl rfl rfl).1

/-- C10: when the autoclose argument is not supplied (null or undefined) the
instance's autoclose policy defaults to false, and with autoclose false
neither reaching end-of-data (shutdown) nor being destroyed ever invokes the
backing resource-close operation. -/
theorem autoclose_default :
    (∀ g : GridStore, (ReadStream.make none g).autoclose = false) ∧
    (∀ (co : Option Nat × Option Nat) (err : Option Nat) (s : ReadStream),
        s.autoclose = false →
          closeCallCount (shutdownRun co err s).2 = 0 ∧
          closeCallCount (destroyRun co err s).2 = 0) := by
  refine ⟨fun g => rfl, ?_⟩
  intro co err s h
  refine ⟨shutdownRun_no_closeCall co err s h, ?_⟩
  cases hd : s.destroyed
  · rw [destroyRun]
    simp only [hd, Bool.false_eq_true, if_false]
    exact shutdownRun_no_closeCall co err _ h
  · simp [destroyRun, hd, closeCallCount]

/-- Witness for C10 on the Scenario A stream, whose autoclose is false. -/
theorem autoclose_default_witness :
    closeCallCount (shutdownRun (none, none) none streamA).2 = 0 ∧
    closeCallCount (destroyRun (none, none) none streamA).2 = 0 :=
  autoclose_default.2 (none, none) none streamA rfl
